import Mathlib

/-
  Verification development for the `git_commit_helper` terminal UI
  (src/main.rs).  The application state machine, the porcelain status
  parser and the gateway-facing operations are embedded shallowly:

  * strings are Lean `String`s handled through their character lists
    (the source works on byte offsets of UTF-8 strings; for the ASCII
    data these functions receive, byte offsets and character offsets
    coincide);
  * subprocess invocations (`Command::new("git")...output()`) are
    modelled by a `Gateway` record that fixes, for one operation, the
    `io::Result<Output>` of every query the operation may issue
    (`none` = the invocation itself errored, `some r` = it ran and
    produced exit flag / stdout / stderr);
  * `Instant`-based notification timestamps are not modelled (real
    time); a notification is just its message text;
  * `ratatui`'s `ListState` is modelled by its selected index,
    an `Option Nat`.
-/

/-! ### String helpers (Rust `str` operations used by the source) -/

/-- Rust `str::split(sep)` on a single separator character:
    `""` splits to `[""]`, separators at the ends produce empty parts. -/
def splitOnChar (sep : Char) : List Char → List (List Char)
  | [] => [[]]
  | c :: rest =>
    match splitOnChar sep rest, decide (c = sep) with
    | r, true => [] :: r
    | [], false => [[c]]
    | h :: t, false => (c :: h) :: t

/-- Rust `str::trim`: drop whitespace from both ends. -/
def trimChars (cs : List Char) : List Char :=
  ((cs.dropWhile Char.isWhitespace).reverse.dropWhile Char.isWhitespace).reverse

/-- Rust `str::trim` on `String`. -/
def rustTrim (s : String) : String := ⟨trimChars s.data⟩

/-- Rust `str::lines()`: split on `'\n'`, drop a final empty segment
    produced by a trailing newline, strip one trailing `'\r'` per line. -/
def rustLines (s : String) : List String :=
  let parts := splitOnChar '\n' s.data
  let parts := match parts.getLast? with
    | some [] => parts.dropLast
    | _ => parts
  parts.map (fun l => ⟨if l.getLast? = some '\r' then l.dropLast else l⟩)

/-- Rust `String::insert(i, c)` (character-offset model). -/
def strInsert (s : String) (i : Nat) (c : Char) : String :=
  ⟨s.data.take i ++ c :: s.data.drop i⟩

/-- Rust `String::remove(i)` (character-offset model; the source only
    calls it with `i < len`). -/
def strRemove (s : String) (i : Nat) : String :=
  ⟨s.data.take i ++ s.data.drop (i + 1)⟩

/-- Decimal value of a digit string. -/
def digitsToNat (ds : List Char) : Nat :=
  ds.foldl (fun acc c => acc * 10 + (c.toNat - 48)) 0

/-- Rust `str::parse::<i32>()`: optional sign, one or more ASCII digits,
    result must fit in a 32-bit signed integer; `none` on any failure. -/
def parseI32 (s : List Char) : Option Int :=
  let signDigits : Bool × List Char :=
    match s with
    | '+' :: rest => (false, rest)
    | '-' :: rest => (true, rest)
    | cs => (false, cs)
  let neg := signDigits.1
  let ds := signDigits.2
  if ds.isEmpty then none
  else if ds.all Char.isDigit then
    let v : Int := if neg then -(digitsToNat ds : Int) else (digitsToNat ds : Int)
    if -(2 ^ 31) ≤ v ∧ v ≤ 2 ^ 31 - 1 then some v else none
  else none

/-! ### Data model (structs and enums of src/main.rs) -/

/-- `enum FileStatus`. -/
inductive FileStatus
  | Untracked
  | Modified
  | Staged
  | Added
  | Deleted
  | Renamed
deriving DecidableEq, Repr

/-- `struct GitFile`. -/
structure GitFile where
  path : String
  status : FileStatus
  staged : Bool
deriving DecidableEq, Repr

/-- `enum AppMode`. -/
inductive AppMode
  | FileList
  | DiffView
  | CommitMessage
  | Help
deriving DecidableEq, Repr

/-- `struct GitStatus`.  `ahead`/`behind` are `i32` in the source; their
    values are produced by `parseI32`, which enforces the i32 range. -/
structure GitStatus where
  current_branch : String
  ahead : Int
  behind : Int
  files : List GitFile
deriving DecidableEq, Repr

/-- Result of one subprocess invocation that ran to completion:
    `output.status.success()`, lossily decoded stdout and stderr. -/
structure CmdResult where
  success : Bool
  stdout : String
  stderr : String
deriving DecidableEq, Repr

/-- One operation's view of the external git tool: the `io::Result` of
    every invocation the operation may issue (`none` = `Err(_)` from
    `Command::output`).  The `git add` / `git reset HEAD` results are
    not recorded because the source ignores them entirely. -/
structure Gateway where
  branchQ : Option CmdResult := none
  revListQ : Option CmdResult := none
  statusQ : Option CmdResult := none
  commitR : Option CmdResult := none
  pushR : Option CmdResult := none
  diffR : Option CmdResult := none
deriving DecidableEq, Repr

/-- The crossterm key codes the handlers distinguish. -/
inductive KeyCode
  | char (c : Char)
  | f (n : Nat)
  | esc
  | enter
  | backspace
  | delete
  | left
  | right
  | home
  | endKey
  | tab
  | up
  | down
deriving DecidableEq, Repr

/-- `struct App`.  Source field names are kept except
    `commit_prefix` → `commit_prefix_text` and
    `selected_prefix` → `selected_prefix_idx`;
    `file_list_state` is the `ListState`'s selected index and
    `notification` is the message of `Option<(String, Instant)>`. -/
structure App where
  mode : AppMode
  files : List GitFile
  selected_file : Nat
  file_list_state : Option Nat
  commit_message : String
  commit_prefix_text : String
  commit_prefixes : List String
  selected_prefix_idx : Nat
  git_status : GitStatus
  diff_content : String
  notification : Option String
  should_quit : Bool
  cursor_position : Nat
deriving DecidableEq, Repr

/-- `impl Default for App` (after the `select(Some(0))` call). -/
def App.default : App :=
  { mode := AppMode.FileList
    files := []
    selected_file := 0
    file_list_state := some 0
    commit_message := ""
    commit_prefix_text := ""
    commit_prefixes :=
      ["feat: ", "fix: ", "docs: ", "style: ", "refactor: ", "test: ", "chore: "]
    selected_prefix_idx := 0
    git_status := { current_branch := "", ahead := 0, behind := 0, files := [] }
    diff_content := ""
    notification := none
    should_quit := false
    cursor_position := 0 }

/-! ### Status parser (`App::get_git_status`, `App::get_current_branch`) -/

/-- The `match (staged_status, unstaged_status)` of `get_git_status`,
    arm for arm. -/
def classifyStatus (ix wt : Char) : FileStatus :=
  match ix, wt with
  | 'A', _ => FileStatus.Added
  | 'M', _ => FileStatus.Staged
  | 'D', _ => FileStatus.Deleted
  | 'R', _ => FileStatus.Renamed
  | '?', '?' => FileStatus.Untracked
  | _, 'M' => FileStatus.Modified
  | _, 'D' => FileStatus.Deleted
  | _, _ => FileStatus.Modified

/-- `let staged = staged_status != ' ' && staged_status != '?';` -/
def stagedFlag (ix : Char) : Bool :=
  ix ≠ ' ' && ix ≠ '?'

/-- One porcelain line: lines shorter than 3 characters are dropped;
    character 0 is the index code, character 1 the worktree code,
    characters 3.. the path. -/
def parseStatusLine (line : String) : Option GitFile :=
  if line.data.length ≥ 3 then
    let c0 := line.data.getD 0 ' '
    let c1 := line.data.getD 1 ' '
    some { path := ⟨line.data.drop 3⟩
           status := classifyStatus c0 c1
           staged := stagedFlag c0 }
  else none

/-- The porcelain block: parse every line, keeping input order. -/
def parsePorcelain (out : String) : List GitFile :=
  (rustLines out).filterMap parseStatusLine

/-- The ahead/behind block of `get_git_status`: trim stdout, split on
    TAB; when there are exactly two parts, `parse().unwrap_or(0)` each;
    otherwise both counts stay 0. -/
def parseAheadBehind (s : String) : Int × Int :=
  let parts := splitOnChar '\t' (rustTrim s).data
  if parts.length = 2 then
    ((parseI32 (parts.getD 0 [])).getD 0, (parseI32 (parts.getD 1 [])).getD 0)
  else (0, 0)

/-- `App::get_current_branch`: trimmed stdout when the invocation ran
    and exited successfully, `"unknown"` otherwise. -/
def get_current_branch (env : Gateway) : String :=
  match env.branchQ with
  | some out => if out.success then rustTrim out.stdout else "unknown"
  | none => "unknown"

/-- `App::get_git_status`: branch, then ahead/behind (only when the
    rev-list invocation ran and succeeded), then the porcelain files
    (only when the status invocation ran and succeeded). -/
def get_git_status (env : Gateway) : GitStatus :=
  let st : GitStatus :=
    { current_branch := get_current_branch env
      ahead := 0, behind := 0, files := [] }
  let st :=
    match env.revListQ with
    | some out =>
      if out.success then
        let ab := parseAheadBehind out.stdout
        { st with ahead := ab.1, behind := ab.2 }
      else st
    | none => st
  match env.statusQ with
  | some out =>
    if out.success then { st with files := parsePorcelain out.stdout } else st
  | none => st

/-! ### Application operations -/

/-- `App::show_notification` (timestamp not modelled). -/
def show_notification (message : String) (s : App) : App :=
  { s with notification := some message }

/-- `App::refresh_git_status`: re-query, copy the file list, then clamp
    the selection (`None` on an empty list, `min(sel, len-1)` else). -/
def refresh_git_status (env : Gateway) (s : App) : App :=
  let gs := get_git_status env
  let s := { s with git_status := gs, files := gs.files }
  if s.files.isEmpty then
    { s with selected_file := 0, file_list_state := none }
  else
    let sel := min s.selected_file (s.files.length - 1)
    { s with selected_file := sel, file_list_state := some sel }

/-- `App::has_staged_files`. -/
def has_staged_files (s : App) : Bool :=
  s.files.any (fun f => f.staged)

/-- `App::toggle_stage_file`: early return on an empty list; otherwise
    run `git add`/`git reset HEAD` on the selected path (both results
    are discarded by the source, so they do not appear in the state
    transition) and always refresh. -/
def toggle_stage_file (env : Gateway) (s : App) : App :=
  if s.files.isEmpty then s
  else refresh_git_status env s

/-- `App::show_diff`: early return on an empty list; store stdout and
    enter `DiffView` only when the diff invocation ran and succeeded. -/
def show_diff (env : Gateway) (s : App) : App :=
  if s.files.isEmpty then s
  else
    match env.diffR with
    | some out =>
      if out.success then
        { s with diff_content := out.stdout, mode := AppMode.DiffView }
      else s
    | none => s

/-- `App::perform_commit`: nothing at all when the invocation errors;
    on exit success notify, clear the draft and refresh; on exit
    failure only notify with the stderr text. -/
def perform_commit (env : Gateway) (s : App) : App :=
  match env.commitR with
  | some out =>
    if out.success then
      let s := show_notification "Commit successful" s
      let s := { s with commit_message := "", cursor_position := 0 }
      refresh_git_status env s
    else
      show_notification ("Commit failed: " ++ out.stderr) s
  | none => s

/-- `App::push_to_remote`: same shape as `perform_commit`, without
    touching the draft. -/
def push_to_remote (env : Gateway) (s : App) : App :=
  match env.pushR with
  | some out =>
    if out.success then
      let s := show_notification "Push successful" s
      refresh_git_status env s
    else
      show_notification ("Push failed: " ++ out.stderr) s
  | none => s

/-! ### Input handlers -/

/-- The `KeyCode::Down | KeyCode::Char('j')` arm of
    `handle_file_list_input`. -/
def navDown (s : App) : App :=
  if s.files.isEmpty then s
  else
    let sel := (s.selected_file + 1) % s.files.length
    { s with selected_file := sel, file_list_state := some sel }

/-- The `KeyCode::Up | KeyCode::Char('k')` arm of
    `handle_file_list_input`. -/
def navUp (s : App) : App :=
  if s.files.isEmpty then s
  else
    let sel := if s.selected_file = 0 then s.files.length - 1
               else s.selected_file - 1
    { s with selected_file := sel, file_list_state := some sel }

/-- `App::handle_file_list_input`.  The disjoint literal patterns of the
    source `match` are rendered as sequential character tests. -/
def handle_file_list_input (env : Gateway) (key : KeyCode) (s : App) : App :=
  match key with
  | KeyCode.char c =>
    if c = 'q' then { s with should_quit := true }
    else if c = 'h' then { s with mode := AppMode.Help }
    else if c = 'r' then refresh_git_status env s
    else if c = 'j' then navDown s
    else if c = 'k' then navUp s
    else if c = ' ' then toggle_stage_file env s
    else if c = 'd' then
      if s.files.isEmpty then s else show_diff env s
    else if c = 'c' then
      if has_staged_files s then { s with mode := AppMode.CommitMessage }
      else show_notification "No staged files to commit" s
    else if c = 'p' then push_to_remote env s
    else s
  | KeyCode.f n => if n = 1 then { s with mode := AppMode.Help } else s
  | KeyCode.down => navDown s
  | KeyCode.up => navUp s
  | _ => s

/-- `App::handle_diff_view_input`. -/
def handle_diff_view_input (key : KeyCode) (s : App) : App :=
  match key with
  | KeyCode.esc => { s with mode := AppMode.FileList }
  | KeyCode.char c => if c = 'q' then { s with mode := AppMode.FileList } else s
  | _ => s

/-- `App::handle_commit_message_input`. -/
def handle_commit_message_input (env : Gateway) (key : KeyCode) (s : App) : App :=
  match key with
  | KeyCode.esc => { s with mode := AppMode.FileList }
  | KeyCode.enter =>
    if !(rustTrim s.commit_message).data.isEmpty then
      let s := perform_commit env s
      { s with mode := AppMode.FileList }
    else
      show_notification "Commit message cannot be empty" s
  | KeyCode.char c =>
    { s with commit_message := strInsert s.commit_message s.cursor_position c
             cursor_position := s.cursor_position + 1 }
  | KeyCode.backspace =>
    if s.cursor_position > 0 then
      { s with commit_message := strRemove s.commit_message (s.cursor_position - 1)
               cursor_position := s.cursor_position - 1 }
    else s
  | KeyCode.delete =>
    if s.cursor_position < s.commit_message.data.length then
      { s with commit_message := strRemove s.commit_message s.cursor_position }
    else s
  | KeyCode.left =>
    if s.cursor_position > 0 then
      { s with cursor_position := s.cursor_position - 1 }
    else s
  | KeyCode.right =>
    if s.cursor_position < s.commit_message.data.length then
      { s with cursor_position := s.cursor_position + 1 }
    else s
  | KeyCode.home => { s with cursor_position := 0 }
  | KeyCode.endKey => { s with cursor_position := s.commit_message.data.length }
  | KeyCode.tab =>
    if s.commit_message.data.isEmpty then
      let idx := (s.selected_prefix_idx + 1) % s.commit_prefixes.length
      let msg := s.commit_prefixes.getD idx ""
      { s with selected_prefix_idx := idx
               commit_message := msg
               cursor_position := msg.data.length }
    else s
  | _ => s

/-- `App::handle_help_input`. -/
def handle_help_input (key : KeyCode) (s : App) : App :=
  match key with
  | KeyCode.esc => { s with mode := AppMode.FileList }
  | KeyCode.char c =>
    if c = 'q' then { s with mode := AppMode.FileList }
    else if c = 'h' then { s with mode := AppMode.FileList }
    else s
  | _ => s

/-- `App::handle_input`: dispatch on the current mode. -/
def handle_input (env : Gateway) (key : KeyCode) (s : App) : App :=
  match s.mode with
  | AppMode.FileList => handle_file_list_input env key s
  | AppMode.DiffView => handle_diff_view_input key s
  | AppMode.CommitMessage => handle_commit_message_input env key s
  | AppMode.Help => handle_help_input key s

/-! ### Specification-side definitions -/

/-- Classification exactly as the spec words it: a priority list of
    eight rules tried in order (index `A`/`M`/`D`/`R`, then `??`, then
    worktree `M`/`D`, then the `Modified` default).  Stated separately
    from `classifyStatus` so that the code's `match` can be compared
    against the spec's priority order. -/
def specClassifyStatus (ix wt : Char) : FileStatus :=
  if ix = 'A' then FileStatus.Added
  else if ix = 'M' then FileStatus.Staged
  else if ix = 'D' then FileStatus.Deleted
  else if ix = 'R' then FileStatus.Renamed
  else if ix = '?' ∧ wt = '?' then FileStatus.Untracked
  else if wt = 'M' then FileStatus.Modified
  else if wt = 'D' then FileStatus.Deleted
  else FileStatus.Modified

/-- The selection invariant of the spec: empty list ⇒ the list-state
    selection is cleared; non-empty list ⇒ `selected_file` is a valid
    index. -/
def SelInv (s : App) : Prop :=
  (s.files = [] → s.file_list_state = none) ∧
  (s.files ≠ [] → s.selected_file < s.files.length)

instance (s : App) : Decidable (SelInv s) := by
  unfold SelInv; infer_instance

/-- The cursor invariant of the spec: `0 ≤ cursor ≤ message.length`
    (the lower bound is free for `Nat`). -/
def CursorInv (s : App) : Prop :=
  s.cursor_position ≤ s.commit_message.data.length

instance (s : App) : Decidable (CursorInv s) := by
  unfold CursorInv; infer_instance

/-- The file-list actions named by the selection-invariant claim:
    navigation down/up, stage-toggle, refresh. -/
inductive FLAct
  | down
  | up
  | toggle
  | refreshAct
deriving DecidableEq, Repr

/-- The key that triggers each file-list action in
    `handle_file_list_input`. -/
def flKey : FLAct → KeyCode
  | FLAct.down => KeyCode.down
  | FLAct.up => KeyCode.up
  | FLAct.toggle => KeyCode.char ' '
  | FLAct.refreshAct => KeyCode.char 'r'

/-- Run a sequence of file-list actions, each against its own view of
    the external repository. -/
def runFLActs : List (Gateway × FLAct) → App → App
  | [], s => s
  | (env, a) :: rest, s => runFLActs rest (handle_file_list_input env (flKey a) s)

/-- The compose-mode editing actions named by the cursor-invariant
    claim (submit and cancel are not edits). -/
inductive EditKey
  | insertCh (c : Char)
  | backspaceK
  | deleteK
  | leftK
  | rightK
  | homeK
  | endK
  | tabK
deriving DecidableEq, Repr

/-- The key that triggers each editing action in
    `handle_commit_message_input`. -/
def editKeyCode : EditKey → KeyCode
  | EditKey.insertCh c => KeyCode.char c
  | EditKey.backspaceK => KeyCode.backspace
  | EditKey.deleteK => KeyCode.delete
  | EditKey.leftK => KeyCode.left
  | EditKey.rightK => KeyCode.right
  | EditKey.homeK => KeyCode.home
  | EditKey.endK => KeyCode.endKey
  | EditKey.tabK => KeyCode.tab

/-- Run a sequence of compose-mode edits. -/
def runEdits (env : Gateway) : List EditKey → App → App
  | [], s => s
  | e :: rest, s => runEdits env rest (handle_commit_message_input env (editKeyCode e) s)

/-- One cycle-prefix action performed from an emptied draft buffer (the
    only situation in which the action does anything). -/
def cycleFromEmpty (env : Gateway) (s : App) : App :=
  handle_commit_message_input env KeyCode.tab { s with commit_message := "" }

/-! ### Concrete states and gateways used by witnesses and
    counterexamples -/

/-- A run in which the branch-name invocation succeeds with empty
    stdout. -/
def envBranchEmpty : Gateway :=
  { branchQ := some { success := true, stdout := "", stderr := "" } }

/-- A run in which the commit subprocess exits unsuccessfully while the
    porcelain status query would report one staged file. -/
def envCommitFail : Gateway :=
  { statusQ := some { success := true, stdout := "M  a.rs\n", stderr := "" }
    commitR := some { success := false, stdout := "", stderr := "boom" } }

/-- The default state with a single unstaged file in the list. -/
def appOneFile : App :=
  { App.default with
      files := [{ path := "a.rs", status := FileStatus.Modified, staged := false }]
      file_list_state := some 0 }

/-- The default state after entering commit-compose mode. -/
def appComposeDefault : App :=
  { App.default with mode := AppMode.CommitMessage }

/-! ### Helper lemmas -/

theorem hfl_space (env : Gateway) (s : App) :
    handle_file_list_input env (KeyCode.char ' ') s = toggle_stage_file env s := rfl

theorem hfl_r (env : Gateway) (s : App) :
    handle_file_list_input env (KeyCode.char 'r') s = refresh_git_status env s := rfl

theorem hfl_d (env : Gateway) (s : App) :
    handle_file_list_input env (KeyCode.char 'd') s =
      if s.files.isEmpty then s else show_diff env s := rfl

theorem hfl_down (env : Gateway) (s : App) :
    handle_file_list_input env KeyCode.down s = navDown s := rfl

theorem hfl_up (env : Gateway) (s : App) :
    handle_file_list_input env KeyCode.up s = navUp s := rfl

/-- `refresh_git_status` never touches the freshly queried snapshot. -/
theorem refresh_git_status_snapshot (env : Gateway) (s : App) :
    (refresh_git_status env s).git_status = get_git_status env ∧
    (refresh_git_status env s).files = (get_git_status env).files := by
  constructor <;> (dsimp only [refresh_git_status]; split <;> rfl)

/-- `refresh_git_status` establishes the selection invariant from any
    prior state. -/
theorem refresh_selinv (env : Gateway) (s : App) :
    SelInv (refresh_git_status env s) := by
  unfold SelInv
  dsimp only [refresh_git_status]
  rcases hf : (get_git_status env).files with _ | ⟨a, as⟩ <;> simp [hf]

theorem navDown_selinv (s : App) (h : SelInv s) : SelInv (navDown s) := by
  unfold navDown
  rcases hf : s.files with _ | ⟨a, as⟩
  · simpa [hf] using h
  · unfold SelInv at *
    simp [hf] at h ⊢
    exact Nat.mod_lt _ (Nat.succ_pos _)

theorem navUp_selinv (s : App) (h : SelInv s) : SelInv (navUp s) := by
  unfold navUp
  rcases hf : s.files with _ | ⟨a, as⟩
  · simpa [hf] using h
  · unfold SelInv at *
    simp [hf] at h ⊢
    split <;> omega

theorem toggle_selinv (env : Gateway) (s : App) (h : SelInv s) :
    SelInv (toggle_stage_file env s) := by
  unfold toggle_stage_file
  split
  · exact h
  · exact refresh_selinv env s

/-! ### Claim C1 — selection invariant -/

/-- C1: (1) every refresh — whatever the repository now reports, in
    particular when the list shrinks — re-establishes the selection
    invariant; (2) from any state satisfying it, every sequence of
    navigation, stage-toggle and refresh actions (each action seeing an
    arbitrary repository) preserves it: empty list ⇒ selection cleared,
    non-empty list ⇒ `selected_file < files.length`. -/
theorem C1_selection_invariant :
    (∀ (env : Gateway) (s : App), SelInv (refresh_git_status env s)) ∧
    (∀ s : App, SelInv s →
      ∀ acts : List (Gateway × FLAct), SelInv (runFLActs acts s)) := by
  refine ⟨refresh_selinv, ?_⟩
  intro s h acts
  induction acts generalizing s with
  | nil => exact h
  | cons p rest ih =>
    obtain ⟨env, a⟩ := p
    refine ih _ ?_
    cases a
    · exact navDown_selinv s h
    · exact navUp_selinv s h
    · exact toggle_selinv env s h
    · exact refresh_selinv env s

/-- C1 witness: the invariant holds after refreshing the default state
    against an empty repository view, and after a concrete
    down/toggle/up/refresh sequence from a one-file state. -/
theorem C1_selection_invariant_witness :
    SelInv (refresh_git_status {} App.default) ∧
    SelInv (runFLActs
      [({}, FLAct.down), (envCommitFail, FLAct.toggle),
       ({}, FLAct.up), ({}, FLAct.refreshAct)] appOneFile) :=
  ⟨C1_selection_invariant.1 {} App.default,
   C1_selection_invariant.2 appOneFile (by decide) _⟩

/-! ### Claim C2 — status classification -/

/-- C2: status classification is a pure function of the (index,
    worktree) code pair following the spec's priority order (index
    `A`→Added, `M`→Staged, `D`→Deleted, `R`→Renamed, then
    `??`→Untracked, then worktree `M`→Modified, `D`→Deleted, default
    Modified); the staged flag holds exactly when the index code is
    neither space nor `?`; and the five quoted example pairs evaluate
    as the claim lists them. -/
theorem C2_classification_matches_spec :
    (∀ ix wt, classifyStatus ix wt = specClassifyStatus ix wt) ∧
    (∀ ix, stagedFlag ix = true ↔ ix ≠ ' ' ∧ ix ≠ '?') ∧
    classifyStatus 'A' ' ' = FileStatus.Added ∧ stagedFlag 'A' = true ∧
    classifyStatus '?' '?' = FileStatus.Untracked ∧ stagedFlag '?' = false ∧
    classifyStatus ' ' 'M' = FileStatus.Modified ∧ stagedFlag ' ' = false ∧
    classifyStatus 'M' ' ' = FileStatus.Staged ∧ stagedFlag 'M' = true ∧
    classifyStatus 'D' ' ' = FileStatus.Deleted ∧ stagedFlag 'D' = true := by
  refine ⟨?_, ?_, by decide, by decide, by decide, by decide, by decide,
    by decide, by decide, by decide, by decide, by decide⟩
  · intro ix wt
    unfold classifyStatus specClassifyStatus
    split <;> try simp_all
    rw [if_neg (by tauto)]
  · intro ix
    simp [stagedFlag]

/-! ### Claim C4 — current branch sentinel -/

/-- C4 counterexample: when the branch query succeeds but prints
    nothing, the code returns the empty string, not the sentinel
    `"unknown"` that the claim requires for empty output. -/
theorem C4_cex_empty_output_not_unknown :
    envBranchEmpty.branchQ = some { success := true, stdout := "", stderr := "" } ∧
    get_current_branch envBranchEmpty = "" ∧
    get_current_branch envBranchEmpty ≠ "unknown" := by
  decide

/-- C4 (amended): `current_branch` is the trimmed stdout of the
    branch-name query whenever the invocation runs and exits
    successfully — even when that output is empty — and it is the
    sentinel `"unknown"` exactly when the invocation errors or exits
    unsuccessfully. -/
theorem C4_current_branch_amended :
    (∀ env : Gateway, env.branchQ = none → get_current_branch env = "unknown") ∧
    (∀ (env : Gateway) (r : CmdResult), env.branchQ = some r → r.success = false →
      get_current_branch env = "unknown") ∧
    (∀ (env : Gateway) (r : CmdResult), env.branchQ = some r → r.success = true →
      get_current_branch env = rustTrim r.stdout) := by
  refine ⟨?_, ?_, ?_⟩
  · intro env h; simp [get_current_branch, h]
  · intro env r h hs; simp [get_current_branch, h, hs]
  · intro env r h hs; simp [get_current_branch, h, hs]

/-- C4 witness: the three amended branches at concrete gateways. -/
theorem C4_current_branch_amended_witness :
    get_current_branch { branchQ := none } = "unknown" ∧
    get_current_branch { branchQ := some { success := false, stdout := "x", stderr := "e" } } = "unknown" ∧
    get_current_branch { branchQ := some { success := true, stdout := " main\n", stderr := "" } } = rustTrim " main\n" :=
  ⟨C4_current_branch_amended.1 _ rfl,
   C4_current_branch_amended.2.1 _ _ rfl rfl,
   C4_current_branch_amended.2.2 _ _ rfl rfl⟩

/-! ### Claim C5 — ahead/behind parsing -/

/-- C5: ahead/behind parsing is a total function; `"2\t0\n"` parses to
    `(2, 0)`; when splitting the trimmed line on TAB does not give
    exactly two parts the result is `(0, 0)`; when it does, each field
    that fails integer parsing defaults to 0; and the fully malformed
    lines `"abc"` and `"a\tb"` parse to `(0, 0)`. -/
theorem C5_ahead_behind_parsing :
    parseAheadBehind "2\t0\n" = (2, 0) ∧
    (∀ s : String, (splitOnChar '\t' (rustTrim s).data).length ≠ 2 →
      parseAheadBehind s = (0, 0)) ∧
    (∀ (s : String) (p0 p1 : List Char),
      splitOnChar '\t' (rustTrim s).data = [p0, p1] →
      parseI32 p0 = none → (parseAheadBehind s).1 = 0) ∧
    (∀ (s : String) (p0 p1 : List Char),
      splitOnChar '\t' (rustTrim s).data = [p0, p1] →
      parseI32 p1 = none → (parseAheadBehind s).2 = 0) ∧
    parseAheadBehind "abc" = (0, 0) ∧
    parseAheadBehind "a\tb" = (0, 0) := by
  refine ⟨by decide, ?_, ?_, ?_, by decide, by decide⟩
  · intro s h; simp [parseAheadBehind, h]
  · intro s p0 p1 h h0; simp [parseAheadBehind, h, h0]
  · intro s p0 p1 h h1; simp [parseAheadBehind, h, h1]

/-- C5 witness: the universally quantified default clauses applied to
    concrete malformed lines. -/
theorem C5_ahead_behind_parsing_witness :
    parseAheadBehind "12" = (0, 0) ∧
    (parseAheadBehind "x\t3").1 = 0 ∧
    (parseAheadBehind "3\ty").2 = 0 :=
  ⟨C5_ahead_behind_parsing.2.1 "12" (by decide),
   C5_ahead_behind_parsing.2.2.1 "x\t3" ['x'] ['3'] (by decide) (by decide),
   C5_ahead_behind_parsing.2.2.2.1 "3\ty" ['3'] ['y'] (by decide) (by decide)⟩

/-! ### Claim C3 — resynchronization after mutations -/

/-- C3 counterexample: a commit whose subprocess exits unsuccessfully
    while the repository's porcelain status lists one file.  After
    `perform_commit` the state still carries the stale empty snapshot
    and differs from what a resynchronization would produce, so no
    resynchronization was triggered on the failure path. -/
theorem C3_cex_failed_commit_no_resync :
    envCommitFail.commitR = some { success := false, stdout := "", stderr := "boom" } ∧
    (get_git_status envCommitFail).files ≠ [] ∧
    (perform_commit envCommitFail App.default).git_status.files = [] ∧
    (perform_commit envCommitFail App.default).git_status ≠ get_git_status envCommitFail := by
  decide

/-- C3 (amended): toggle-stage (with a non-empty file list) always
    resynchronizes, whatever the stage/unstage call did; commit and
    push resynchronize only when their subprocess runs and exits
    successfully — on a failed exit they only set the failure
    notification, and when the invocation errors they change nothing. -/
theorem C3_resync_amended :
    (∀ (env : Gateway) (s : App), s.files ≠ [] →
      (toggle_stage_file env s).git_status = get_git_status env ∧
      (toggle_stage_file env s).files = (get_git_status env).files) ∧
    (∀ (env : Gateway) (s : App) (r : CmdResult),
      env.commitR = some r → r.success = true →
      (perform_commit env s).git_status = get_git_status env ∧
      (perform_commit env s).files = (get_git_status env).files) ∧
    (∀ (env : Gateway) (s : App) (r : CmdResult),
      env.commitR = some r → r.success = false →
      perform_commit env s = show_notification ("Commit failed: " ++ r.stderr) s) ∧
    (∀ (env : Gateway) (s : App), env.commitR = none → perform_commit env s = s) ∧
    (∀ (env : Gateway) (s : App) (r : CmdResult),
      env.pushR = some r → r.success = true →
      (push_to_remote env s).git_status = get_git_status env ∧
      (push_to_remote env s).files = (get_git_status env).files) ∧
    (∀ (env : Gateway) (s : App) (r : CmdResult),
      env.pushR = some r → r.success = false →
      push_to_remote env s = show_notification ("Push failed: " ++ r.stderr) s) ∧
    (∀ (env : Gateway) (s : App), env.pushR = none → push_to_remote env s = s) := by
  refine ⟨?_, ?_, ?_, ?_, ?_, ?_, ?_⟩
  · intro env s h
    unfold toggle_stage_file
    rw [if_neg (by simpa using h)]
    exact refresh_git_status_snapshot env s
  · intro env s r h hs
    unfold perform_commit
    rw [h]
    simp only [hs, if_true]
    exact refresh_git_status_snapshot env _
  · intro env s r h hs
    unfold perform_commit
    rw [h]
    simp [hs]
  · intro env s h
    unfold perform_commit
    rw [h]
  · intro env s r h hs
    unfold push_to_remote
    rw [h]
    simp only [hs, if_true]
    exact refresh_git_status_snapshot env _
  · intro env s r h hs
    unfold push_to_remote
    rw [h]
    simp [hs]
  · intro env s h
    unfold push_to_remote
    rw [h]

/-- C3 witness: the amended clauses at concrete gateways and states. -/
theorem C3_resync_amended_witness :
    (toggle_stage_file {} appOneFile).git_status = get_git_status {} ∧
    (perform_commit { commitR := some { success := true, stdout := "", stderr := "" } } App.default).git_status
      = get_git_status { commitR := some { success := true, stdout := "", stderr := "" } } ∧
    perform_commit envCommitFail App.default =
      show_notification ("Commit failed: " ++ "boom") App.default ∧
    perform_commit {} App.default = App.default ∧
    (push_to_remote { pushR := some { success := true, stdout := "", stderr := "" } } App.default).git_status
      = get_git_status { pushR := some { success := true, stdout := "", stderr := "" } } ∧
    push_to_remote { pushR := some { success := false, stdout := "", stderr := "no" } } App.default =
      show_notification ("Push failed: " ++ "no") App.default ∧
    push_to_remote {} App.default = App.default :=
  ⟨(C3_resync_amended.1 {} appOneFile (by decide)).1,
   (C3_resync_amended.2.1 _ App.default _ rfl rfl).1,
   C3_resync_amended.2.2.1 _ App.default _ rfl rfl,
   C3_resync_amended.2.2.2.1 {} App.default rfl,
   (C3_resync_amended.2.2.2.2.1 _ App.default _ rfl rfl).1,
   C3_resync_amended.2.2.2.2.2.1 _ App.default _ rfl rfl,
   C3_resync_amended.2.2.2.2.2.2 {} App.default rfl⟩

/-! ### Claim C6 — navigation wrap-around -/

/-- C6: in the file-list handler, moving down from the last index wraps
    to 0 and moving up from 0 wraps to the last index; on a one-element
    list (with an in-range selection) both moves leave the index value
    unchanged; on an empty list both moves leave the whole state
    unchanged. -/
theorem C6_navigation_wraps :
    (∀ (env : Gateway) (s : App), s.files ≠ [] →
      s.selected_file = s.files.length - 1 →
      (handle_file_list_input env KeyCode.down s).selected_file = 0) ∧
    (∀ (env : Gateway) (s : App), s.files ≠ [] →
      s.selected_file = 0 →
      (handle_file_list_input env KeyCode.up s).selected_file = s.files.length - 1) ∧
    (∀ (env : Gateway) (s : App), s.files.length = 1 →
      s.selected_file < s.files.length →
      (handle_file_list_input env KeyCode.down s).selected_file = s.selected_file ∧
      (handle_file_list_input env KeyCode.up s).selected_file = s.selected_file) ∧
    (∀ (env : Gateway) (s : App), s.files = [] →
      handle_file_list_input env KeyCode.down s = s ∧
      handle_file_list_input env KeyCode.up s = s) := by
  refine ⟨?_, ?_, ?_, ?_⟩
  · intro env s hne hsel
    rw [hfl_down]; unfold navDown
    rcases hf : s.files with _ | ⟨a, as⟩
    · exact absurd hf hne
    · simp [hf, hsel]
  · intro env s hne hsel
    rw [hfl_up]; unfold navUp
    rcases hf : s.files with _ | ⟨a, as⟩
    · exact absurd hf hne
    · simp [hf, hsel]
  · intro env s hlen hsel
    have h0 : s.selected_file = 0 := by omega
    rcases hf : s.files with _ | ⟨a, as⟩
    · simp [hf] at hlen
    · have has : as.length = 0 := by
        rw [hf] at hlen
        simpa using hlen
      rw [hfl_down, hfl_up]; unfold navDown navUp
      constructor <;> simp [hf, h0, has]
  · intro env s hf
    rw [hfl_down, hfl_up]; unfold navDown navUp
    constructor <;> simp [hf]

/-- C6 witness: wrap-around on a concrete two-file list, no-ops on a
    one-file list and on the empty default state. -/
theorem C6_navigation_wraps_witness :
    (handle_file_list_input {} KeyCode.down
      { App.default with
          files := [{ path := "a", status := FileStatus.Modified, staged := false },
                    { path := "b", status := FileStatus.Untracked, staged := false }]
          selected_file := 1, file_list_state := some 1 }).selected_file = 0 ∧
    (handle_file_list_input {} KeyCode.up
      { App.default with
          files := [{ path := "a", status := FileStatus.Modified, staged := false },
                    { path := "b", status := FileStatus.Untracked, staged := false }]
          selected_file := 0, file_list_state := some 0 }).selected_file = 1 ∧
    (handle_file_list_input {} KeyCode.down appOneFile).selected_file = appOneFile.selected_file ∧
    (handle_file_list_input {} KeyCode.up appOneFile).selected_file = appOneFile.selected_file ∧
    handle_file_list_input {} KeyCode.down App.default = App.default :=
  ⟨C6_navigation_wraps.1 {} _ (by decide) (by decide),
   C6_navigation_wraps.2.1 {} _ (by decide) (by decide),
   (C6_navigation_wraps.2.2.1 {} appOneFile (by decide) (by decide)).1,
   (C6_navigation_wraps.2.2.1 {} appOneFile (by decide) (by decide)).2,
   (C6_navigation_wraps.2.2.2 {} App.default (by decide)).1⟩

/-! ### Claim C7 — empty commit message rejected -/

/-- C7: in commit-compose mode, submitting a draft whose trimmed text
    is empty only sets the "Commit message cannot be empty"
    notification: the commit operation is never invoked (the result
    does not depend on the gateway), the mode stays `CommitMessage` and
    the draft buffer and cursor are unchanged. -/
theorem C7_empty_message_submit_rejected :
    ∀ (env : Gateway) (s : App), s.mode = AppMode.CommitMessage →
      (rustTrim s.commit_message).data = [] →
      handle_input env KeyCode.enter s =
        { s with notification := some "Commit message cannot be empty" } ∧
      (handle_input env KeyCode.enter s).mode = AppMode.CommitMessage ∧
      (handle_input env KeyCode.enter s).commit_message = s.commit_message ∧
      (handle_input env KeyCode.enter s).cursor_position = s.cursor_position := by
  intro env s hm ht
  have heq : handle_input env KeyCode.enter s =
      { s with notification := some "Commit message cannot be empty" } := by
    unfold handle_input
    rw [hm]
    show handle_commit_message_input env KeyCode.enter s = _
    unfold handle_commit_message_input
    simp [ht, show_notification, hm]
  refine ⟨heq, ?_, ?_, ?_⟩ <;> rw [heq]
  exact hm

/-- C7 witness: a whitespace-only draft in compose mode, submitted
    against a gateway that would let a commit succeed; the notification
    appears and nothing else changes. -/
theorem C7_empty_message_submit_rejected_witness :
    handle_input { commitR := some { success := true, stdout := "", stderr := "" } }
        KeyCode.enter { appComposeDefault with commit_message := "  " } =
      { appComposeDefault with
          commit_message := "  "
          notification := some "Commit message cannot be empty" } ∧
    (handle_input { commitR := some { success := true, stdout := "", stderr := "" } }
        KeyCode.enter { appComposeDefault with commit_message := "  " }).mode =
      AppMode.CommitMessage :=
  ⟨(C7_empty_message_submit_rejected _ _ (by decide) (by decide)).1,
   (C7_empty_message_submit_rejected _ _ (by decide) (by decide)).2.1⟩

/-! ### Claim C8 — prefix cycling -/

/-- C8 counterexample: from the default compose state (empty draft,
    `selected_prefix = 0`, 7 catalog entries), 7 consecutive
    cycle-prefix actions advance `selected_prefix` only once — the
    first press fills the buffer, so the remaining six are no-ops — and
    therefore do not restore the original value. -/
theorem C8_cex_seven_tabs_do_not_restore :
    appComposeDefault.commit_prefixes.length = 7 ∧
    appComposeDefault.commit_message = "" ∧
    appComposeDefault.selected_prefix_idx = 0 ∧
    ((handle_commit_message_input {} KeyCode.tab)^[7] appComposeDefault).selected_prefix_idx = 1 ∧
    ((handle_commit_message_input {} KeyCode.tab)^[7] appComposeDefault).selected_prefix_idx ≠
      appComposeDefault.selected_prefix_idx := by
  refine ⟨rfl, rfl, rfl, ?_, ?_⟩ <;> decide

/-- One cycle-prefix action from an emptied buffer advances the
    selection circularly and keeps the catalog. -/
theorem cycleFromEmpty_step (env : Gateway) (s : App) :
    (cycleFromEmpty env s).selected_prefix_idx =
      (s.selected_prefix_idx + 1) % s.commit_prefixes.length ∧
    (cycleFromEmpty env s).commit_prefixes = s.commit_prefixes := by
  unfold cycleFromEmpty handle_commit_message_input
  simp

/-- Iterating cycle-from-empty `k` times adds `k` modulo the catalog
    length, provided the selection starts in range. -/
theorem cycleFromEmpty_iter (env : Gateway) :
    ∀ (k : Nat) (s : App), s.selected_prefix_idx < s.commit_prefixes.length →
      ((cycleFromEmpty env)^[k] s).commit_prefixes = s.commit_prefixes ∧
      ((cycleFromEmpty env)^[k] s).selected_prefix_idx =
        (s.selected_prefix_idx + k) % s.commit_prefixes.length := by
  intro k
  induction k with
  | zero =>
    intro s h
    exact ⟨rfl, (Nat.mod_eq_of_lt h).symm⟩
  | succ k ih =>
    intro s h
    have hpos : 0 < s.commit_prefixes.length := Nat.lt_of_le_of_lt (Nat.zero_le _) h
    have hstep := cycleFromEmpty_step env s
    have hlt : (cycleFromEmpty env s).selected_prefix_idx <
        (cycleFromEmpty env s).commit_prefixes.length := by
      rw [hstep.1, hstep.2]
      exact Nat.mod_lt _ hpos
    have := ih (cycleFromEmpty env s) hlt
    rw [Function.iterate_succ_apply]
    refine ⟨by rw [this.1, hstep.2], ?_⟩
    rw [this.2, hstep.1, hstep.2, Nat.mod_add_mod]
    ring_nf

/-- C8 (amended): cycle-prefix changes state only when the draft buffer
    is empty; with an empty buffer it advances `selected_prefix` by one
    modulo the catalog length, replaces the buffer with the selected
    prefix text and puts the cursor at its end; and N cycle-prefix
    actions, each performed from an emptied buffer, restore the
    original in-range `selected_prefix` (N = catalog length).  N
    consecutive key presses do not cycle, because the first press fills
    the buffer (see the counterexample). -/
theorem C8_prefix_cycling_amended :
    (∀ (env : Gateway) (s : App), s.commit_message.data ≠ [] →
      handle_commit_message_input env KeyCode.tab s = s) ∧
    (∀ (env : Gateway) (s : App), s.commit_message.data = [] →
      handle_commit_message_input env KeyCode.tab s =
        { s with
            selected_prefix_idx := (s.selected_prefix_idx + 1) % s.commit_prefixes.length
            commit_message :=
              s.commit_prefixes.getD ((s.selected_prefix_idx + 1) % s.commit_prefixes.length) ""
            cursor_position :=
              (s.commit_prefixes.getD ((s.selected_prefix_idx + 1) % s.commit_prefixes.length) "").data.length }) ∧
    (∀ (env : Gateway) (s : App), s.selected_prefix_idx < s.commit_prefixes.length →
      ((cycleFromEmpty env)^[s.commit_prefixes.length] s).selected_prefix_idx =
        s.selected_prefix_idx) := by
  refine ⟨?_, ?_, ?_⟩
  · intro env s h
    unfold handle_commit_message_input
    simp [h]
  · intro env s h
    unfold handle_commit_message_input
    simp [h]
  · intro env s h
    have hpos : 0 < s.commit_prefixes.length := Nat.lt_of_le_of_lt (Nat.zero_le _) h
    rw [(cycleFromEmpty_iter env _ s h).2, Nat.add_mod_right, Nat.mod_eq_of_lt h]

/-- C8 witness: on the default compose state, one press from the empty
    buffer advances to prefix 1 and fills the buffer with "fix: "; a
    press on the filled buffer is a no-op; seven cycles from emptied
    buffers restore prefix 0. -/
theorem C8_prefix_cycling_amended_witness :
    handle_commit_message_input {} KeyCode.tab appComposeDefault =
      { appComposeDefault with
          selected_prefix_idx := 1
          commit_message := "fix: "
          cursor_position := 5 } ∧
    handle_commit_message_input {} KeyCode.tab
        { appComposeDefault with commit_message := "fix: " } =
      { appComposeDefault with commit_message := "fix: " } ∧
    ((cycleFromEmpty {})^[appComposeDefault.commit_prefixes.length] appComposeDefault).selected_prefix_idx =
      appComposeDefault.selected_prefix_idx := by
  refine ⟨?_, ?_, ?_⟩
  · have := C8_prefix_cycling_amended.2.1 {} appComposeDefault (by decide)
    rw [this]; decide
  · exact C8_prefix_cycling_amended.1 {} _ (by decide)
  · exact C8_prefix_cycling_amended.2.2 {} appComposeDefault (by decide)

/-! ### Claim C9 — cursor bounds invariant -/

/-- Every single compose-mode edit preserves the cursor bound. -/
theorem edit_cursor_inv (env : Gateway) (e : EditKey) (s : App)
    (h : CursorInv s) :
    CursorInv (handle_commit_message_input env (editKeyCode e) s) := by
  unfold CursorInv at h ⊢
  cases e
  all_goals unfold editKeyCode handle_commit_message_input
  all_goals dsimp only []
  case insertCh c =>
    simp only [strInsert, List.length_append, List.length_take,
      List.length_cons, List.length_drop]
    omega
  case backspaceK =>
    split
    · simp only [strRemove, List.length_append, List.length_take,
        List.length_drop]
      omega
    · exact h
  case deleteK =>
    split
    · simp only [strRemove, List.length_append, List.length_take,
        List.length_drop]
      omega
    · exact h
  case leftK =>
    split
    · dsimp only []
      omega
    · exact h
  case rightK =>
    split
    · dsimp only []
      omega
    · exact h
  case homeK => exact Nat.zero_le _
  case endK => exact Nat.le_refl _
  case tabK =>
    split
    · exact Nat.le_refl _
    · exact h

/-- C9: every sequence of compose-mode editing actions (insert,
    backspace, delete, cursor moves, home/end, cycle-prefix) started in
    a state with `cursor ≤ message.length` ends in a state with
    `cursor ≤ message.length` (the lower bound is free for `Nat`). -/
theorem C9_cursor_invariant :
    ∀ (env : Gateway) (s : App), CursorInv s →
      ∀ es : List EditKey, CursorInv (runEdits env es s) := by
  intro env s h es
  induction es generalizing s with
  | nil => exact h
  | cons e rest ih => exact ih _ (edit_cursor_inv env e s h)

/-- C9 witness: a concrete edit sequence from the default compose
    state. -/
theorem C9_cursor_invariant_witness :
    CursorInv (runEdits {}
      [EditKey.insertCh 'a', EditKey.insertCh 'b', EditKey.leftK,
       EditKey.deleteK, EditKey.backspaceK, EditKey.tabK, EditKey.endK,
       EditKey.homeK] appComposeDefault) :=
  C9_cursor_invariant {} appComposeDefault (by decide) _

/-! ### Claim C10 — empty-list no-ops -/

/-- C10: in file-list mode with an empty file list, the stage-toggle
    and show-diff keys leave the whole application state unchanged; the
    result does not depend on the gateway, so no subprocess outcome can
    influence it and no file-list index is read. -/
theorem C10_empty_list_noops :
    ∀ (env : Gateway) (s : App), s.mode = AppMode.FileList → s.files = [] →
      handle_input env (KeyCode.char ' ') s = s ∧
      handle_input env (KeyCode.char 'd') s = s := by
  intro env s hm hf
  constructor
  · unfold handle_input
    rw [hm]
    show handle_file_list_input env (KeyCode.char ' ') s = s
    rw [hfl_space]
    unfold toggle_stage_file
    simp [hf]
  · unfold handle_input
    rw [hm]
    show handle_file_list_input env (KeyCode.char 'd') s = s
    rw [hfl_d]
    simp [hf]

/-- C10 witness: the default (empty-list) state against a gateway whose
    queries would report a file; space and `d` both change nothing. -/
theorem C10_empty_list_noops_witness :
    handle_input envCommitFail (KeyCode.char ' ') App.default = App.default ∧
    handle_input envCommitFail (KeyCode.char 'd') App.default = App.default :=
  C10_empty_list_noops envCommitFail App.default (by decide) (by decide)
